import Mathlib

/-!
Shallow embedding of the ParentPass chatbot backend core
(session store, analytics category resolver, conversation dispatcher,
HTTP surface) from `app/session_store.py`, `app/session_state.py`,
`app/analytics_loader.py`, `app/auth.py` and the routers
`app/routers/health.py`, `app/routers/sessions.py`,
`app/routers/queries.py`.

Modelling conventions:
- time is `Int` seconds (`datetime.now()` becomes an explicit `now`
  parameter; `timedelta(hours=4)` becomes `4 * 60 * 60`);
- the store dictionary is an association list `List (String × SessionData)`
  (Python dict keys are unique, so removing every binding of a key models
  `del d[k]`, and mapping over every binding of a key models in-place
  mutation of the single bound object);
- Python exceptions become `Except`: an HTTP error is `(status, detail)`,
  an exception of an external call is `Except.error ()`;
- the BAML LLM client (`b.Chat`, `b.AnswerAnalyticsQuestion`) is an
  explicit `LLMClient` parameter, and the file system behind the analytics
  loader an explicit `fs` parameter;
- `state.recent_messages.append(...)` mutates the very object held by the
  store (the routers never call `set_state`), so each append is modelled as
  the corresponding update of the store entry (`SessionStore.mutate_state`).
-/

namespace PPChat

/-- `baml_client.types.Message`: a role ("user" / "assistant") and content. -/
structure Message where
  role : String
  content : String
deriving DecidableEq, Repr

/-- `baml_client.types.State`: the conversation history. -/
structure State where
  recent_messages : List Message
deriving DecidableEq, Repr

/-- `app/session_state.py` `create_state`: a state with no messages. -/
def create_state : State := ⟨[]⟩

/-- The welcome message content of `app/session_store.py:initial_state`. -/
def welcome_content : String :=
  "Hello! I'm the ParentPass administrative assistant. How can I help you analyze the platform today?"

/-- The welcome `Message` appended by `initial_state`. -/
def welcome_message : Message := ⟨"assistant", welcome_content⟩

/-- `app/session_store.py` `initial_state`: `create_state` plus the welcome message. -/
def initial_state : State :=
  ⟨create_state.recent_messages ++ [welcome_message]⟩

/-- `app/session_store.py` `SessionData`: a state with its creation time. -/
structure SessionData where
  state : State
  created_at : Int
deriving DecidableEq, Repr

/-- The dictionary `SessionStore._sessions`, as an association list. -/
structure SessionStore where
  sessions : List (String × SessionData)
deriving DecidableEq, Repr

/-- First binding of a key in the dictionary (`d[k]` / `k in d`). -/
def dictFind : List (String × SessionData) → String → Option SessionData
  | [], _ => none
  | (k, v) :: rest, sid => if k = sid then some v else dictFind rest sid

/-- `d[k] = v`: replace the binding in place if present, else append. -/
def dictSet : List (String × SessionData) → String → SessionData →
    List (String × SessionData)
  | [], sid, v => [(sid, v)]
  | (k, w) :: rest, sid, v =>
    if k = sid then (sid, v) :: rest else (k, w) :: dictSet rest sid v

/-- Mutation of the object bound to `sid` (Python aliasing: the store and
the caller hold the same `SessionData` object). -/
def dictUpdate (m : List (String × SessionData)) (sid : String)
    (g : SessionData → SessionData) : List (String × SessionData) :=
  m.map (fun e => if e.1 = sid then (e.1, g e.2) else e)

/-- `timedelta(hours=4)` in seconds: the session expiry window. -/
def expiry_window : Int := 4 * 60 * 60

/-- `SessionStore._cleanup_expired_sessions`: drop every entry whose
`created_at` is before `now - 4 hours`, keep the rest. -/
def SessionStore.cleanup_expired_sessions (store : SessionStore) (now : Int) :
    SessionStore :=
  ⟨store.sessions.filter (fun e => !decide (e.2.created_at < now - expiry_window))⟩

/-- `SessionStore.get_state`: sweep expired sessions, insert a fresh
`SessionData(initial_state())` when the id is unknown, then return
`self._sessions[session_id].state`.  The final dictionary subscript is kept
fallible (`Except`) so that the code's hypothetical `KeyError` is a real
branch of the embedding. -/
def SessionStore.get_state (store : SessionStore) (now : Int)
    (session_id : String) : Except String (State × SessionStore) :=
  let cleaned := store.cleanup_expired_sessions now
  let store' : SessionStore :=
    if (dictFind cleaned.sessions session_id).isSome then cleaned
    else ⟨dictSet cleaned.sessions session_id ⟨initial_state, now⟩⟩
  match dictFind store'.sessions session_id with
  | some sd => .ok (sd.state, store')
  | none => .error "KeyError"

/-- `SessionStore.set_state`: if the id is bound, assign
`self._sessions[session_id].state = state` (the creation time of the bound
`SessionData` object is untouched); else bind a fresh `SessionData(state)`
stamped with the current time. -/
def SessionStore.set_state (store : SessionStore) (now : Int)
    (session_id : String) (state : State) : SessionStore :=
  match dictFind store.sessions session_id with
  | some _ =>
      ⟨dictUpdate store.sessions session_id (fun sd => { sd with state := state })⟩
  | none => ⟨dictSet store.sessions session_id ⟨state, now⟩⟩

/-- `SessionStore.delete_session`: `if session_id in self._sessions: del
self._sessions[session_id]`. -/
def SessionStore.delete_session (store : SessionStore) (session_id : String) :
    SessionStore :=
  match dictFind store.sessions session_id with
  | some _ => ⟨store.sessions.filter (fun e => !decide (e.1 = session_id))⟩
  | none => store

/-- In-place mutation of the state object bound to `session_id` (Python
aliasing: `state.recent_messages.append(...)` on the object returned by
`get_state` mutates the store's own entry; `created_at` is untouched). -/
def SessionStore.mutate_state (store : SessionStore) (session_id : String)
    (f : State → State) : SessionStore :=
  ⟨dictUpdate store.sessions session_id (fun sd => { sd with state := f sd.state })⟩

/-! ### Authentication (`app/auth.py`) and HTTP surface -/

/-- An HTTP error as raised by `HTTPException(status_code, detail)`. -/
abbrev HttpError := Nat × String

/-- `app/auth.py` `verify_api_key`: `os.getenv("PP_API_KEY")` is the
`Option String` argument; Python truthiness makes the unset and the empty
value both "not configured" (500); a credential different from the
configured value is a 403. -/
def verify_api_key (pp_api_key : Option String) (credentials : String) :
    Except HttpError String :=
  match pp_api_key with
  | none => .error (500, "PP_API_KEY not configured")
  | some expected =>
    if expected = "" then .error (500, "PP_API_KEY not configured")
    else if credentials ≠ expected then .error (403, "Invalid API key")
    else .ok credentials

/-- The `HTTPBearer` dependency followed by `verify_api_key`: a missing or
malformed `Authorization` header is rejected by the framework with 403
before `verify_api_key` runs. -/
def bearer_auth (pp_api_key : Option String) (authorization : Option String) :
    Except HttpError String :=
  match authorization with
  | none => .error (403, "Not authenticated")
  | some credentials => verify_api_key pp_api_key credentials

/-- `app/models/responses.py` `HealthResponse` (timestamp elided). -/
structure HealthResponse where
  status : String
  version : String
deriving DecidableEq, Repr

/-- `app/routers/health.py` `health_check`: the route takes NO
`Depends(verify_api_key)` parameter, so the request context (configured
key, presented credential) is ignored and the handler always answers. -/
def api_health (_pp_api_key : Option String) (_authorization : Option String) :
    Except HttpError HealthResponse :=
  .ok ⟨"ok", "1.0.0"⟩

/-- `app/main.py` `health_check` (the inline variant): same payload behind
`Depends(verify_api_key)`. -/
def main_api_health (pp_api_key : Option String) (authorization : Option String) :
    Except HttpError String :=
  (bearer_auth pp_api_key authorization).bind fun _ => .ok "ok"

/-- `app/models/requests.py` `SessionResponse`. -/
structure SessionResponse where
  session_id : String
  state : State
deriving DecidableEq, Repr

/-- `app/routers/sessions.py` `create_session`: auth, a fresh uuid (the
`new_uuid` parameter), `get_state` on it, HTTP 201 with the new state.  An
exception escaping the handler would be a framework 500. -/
def api_create_session (pp_api_key authorization : Option String)
    (store : SessionStore) (now : Int) (new_uuid : String) :
    Except HttpError (Nat × SessionResponse × SessionStore) :=
  (bearer_auth pp_api_key authorization).bind fun _ =>
    match store.get_state now new_uuid with
    | .ok (state, store') => .ok (201, ⟨new_uuid, state⟩, store')
    | .error _ => .error (500, "Internal Server Error")

/-- `app/routers/sessions.py` `get_session`: auth, then `get_state` with
`except KeyError` mapped to HTTP 404 "not found or expired". -/
def api_get_session (pp_api_key authorization : Option String)
    (store : SessionStore) (now : Int) (session_id : String) :
    Except HttpError (SessionResponse × SessionStore) :=
  (bearer_auth pp_api_key authorization).bind fun _ =>
    match store.get_state now session_id with
    | .ok (state, store') => .ok (⟨session_id, state⟩, store')
    | .error _ =>
        .error (404, "Session " ++ session_id ++ " not found or has expired")

/-- `app/models/responses.py` `DeleteSessionResponse` (timestamp elided). -/
structure DeleteSessionResponse where
  deleted : Bool
  session_id : String
deriving DecidableEq, Repr

/-- `app/routers/sessions.py` `delete_session`: auth, store deletion,
unconditionally `deleted=True`. -/
def api_delete_session (pp_api_key authorization : Option String)
    (store : SessionStore) (session_id : String) :
    Except HttpError (DeleteSessionResponse × SessionStore) :=
  (bearer_auth pp_api_key authorization).bind fun _ =>
    .ok (⟨true, session_id⟩, store.delete_session session_id)

/-! ### Analytics category resolver (`app/analytics_loader.py`) -/

/-- The `match analytics_category` table of
`get_analytics_data_for_category`, keyed by the enum member's name.  The
`case _` arm of the Python match (an unrecognized category value) is the
`none` result. -/
def category_filenames (analytics_category : String) : Option (List String) :=
  match analytics_category with
  | "CONTENT" => some ["content_creation.md"]
  | "EVENTS" => some ["upcoming_events.md"]
  | "REGISTRATIONS" => some ["new_user_stats.md", "user_registration_trends.md"]
  | "NEIGHBORHOODS" => some ["neighborhood_distribution.md"]
  | "ENGAGEMENT" => some ["post_engagement.md", "time_by_section.md",
      "time_by_user_type.md", "push_notifications.md", "search_behavior.md",
      "app_activity_time.md"]
  | "USERS" => some ["active_users.md", "top_users.md",
      "onboarding_performance.md", "navigation_patterns.md"]
  | _ => none

/-- Outcome of one file read attempt in the loader's loop. -/
inductive FileRead where
  /-- `os.path.exists` is false: the file is skipped. -/
  | missing
  /-- `open`/`read` raised: caught by the `except`, logged, skipped. -/
  | read_error
  /-- The file was read successfully. -/
  | ok (content : String)
deriving DecidableEq, Repr

/-- The content a file contributes: `some` only on a successful read. -/
def read_file (fs : String → FileRead) (path : String) : Option String :=
  match fs path with
  | .ok content => some content
  | .missing => none
  | .read_error => none

/-- `app/analytics_loader.py` `get_analytics_data_for_category`: look the
category up in the table (`None` if unrecognized), read each configured
file from `analytics_dir` skipping failures, join the successful reads with
a blank line, and return `None` when none succeeded. -/
def get_analytics_data_for_category (fs : String → FileRead)
    (analytics_category : String) (analytics_dir : String) : Option String :=
  match category_filenames analytics_category with
  | none => none
  | some filenames =>
    let content_parts :=
      filenames.filterMap (fun fn => read_file fs (analytics_dir ++ "/" ++ fn))
    if content_parts.isEmpty then none
    else some (String.intercalate "\n\n" content_parts)

/-! ### Conversation dispatcher (`app/routers/queries.py`) -/

/-- The value `await b.Chat(state)` settles to, when it does not raise:
`isinstance` distinguishes `Message`, `AnalyticsQuestion` and anything
else. -/
inductive ChatResult where
  | message (m : Message)
  | analytics_question (category : String) (question : String)
  | unexpected
deriving DecidableEq, Repr

/-- The external BAML client `b`; `Except.error ()` is a raised exception. -/
structure LLMClient where
  chat : State → Except Unit ChatResult
  answer_analytics_question : State → String → Except Unit Message

/-- `app/models/responses.py` `QueryResponse` (timestamp and timing elided). -/
structure QueryResponse where
  response : String
  session_id : String
deriving DecidableEq, Repr

/-- The fallback of the dispatcher's generic `except` branch. -/
def trouble_try_again : String :=
  "I'm having trouble processing your request right now. Please try again."

/-- The fallback for an unexpected `b.Chat` response type. -/
def trouble_rephrase : String :=
  "I'm having trouble processing your request right now. Please try rephrasing your question or try again later."

/-- The fallback when analytics data is unavailable. -/
def no_analytics_data : String :=
  "I don't have access to the analytics data needed to answer your question right now. Please try again later or contact support if this issue persists."

/-- The `except Exception` branch of `process_query` (lines 171-202):
recover the session id from the header ("unknown" if that fails), re-fetch
the state and append the apology when possible, and answer 200 with the
apology text. -/
def query_exception_handler (store : SessionStore) (now : Int)
    (x_session_id : Option String) : QueryResponse × SessionStore :=
  match x_session_id with
  | none => (⟨trouble_try_again, "unknown"⟩, store)
  | some session_id =>
    match store.get_state now session_id with
    | .ok (_, store') =>
        (⟨trouble_try_again, session_id⟩,
         store'.mutate_state session_id (fun s =>
           ⟨s.recent_messages ++ [⟨"assistant", trouble_try_again⟩]⟩))
    | .error _ => (⟨trouble_try_again, session_id⟩, store)

/-- `app/routers/queries.py` `process_query`: auth, session header (400 if
absent, re-raised past the generic handler), `get_state`, append the user
message (in place, hence also in the store), one `b.Chat` call, branch on
its type, optionally resolve analytics data (`if analytics_data:` is
Python truthiness, so the empty string also falls to the no-data message)
and make the secondary call, append the assistant message, answer 200.
Any exception from the external calls lands in `query_exception_handler`. -/
def process_query (llm : LLMClient)
    (resolver : String → Except Unit (Option String))
    (pp_api_key authorization : Option String) (store : SessionStore)
    (now : Int) (x_session_id : Option String) (message : String) :
    Except HttpError (QueryResponse × SessionStore) :=
  (bearer_auth pp_api_key authorization).bind fun _ =>
  match x_session_id with
  | none => .error (400, "Missing X-Session-ID header")
  | some session_id =>
    match store.get_state now session_id with
    | .error _ => .ok (query_exception_handler store now x_session_id)
    | .ok (state, store1) =>
      let state1 : State := ⟨state.recent_messages ++ [⟨"user", message⟩]⟩
      let store2 := store1.mutate_state session_id (fun s =>
        ⟨s.recent_messages ++ [⟨"user", message⟩]⟩)
      match llm.chat state1 with
      | .error _ => .ok (query_exception_handler store2 now x_session_id)
      | .ok chat_result =>
        let response_message : Except Unit Message :=
          match chat_result with
          | .message m => .ok m
          | .analytics_question category _question =>
            match resolver category with
            | .error _ => .error ()
            | .ok (some analytics_data) =>
              if analytics_data ≠ "" then
                llm.answer_analytics_question state1 analytics_data
              else .ok ⟨"assistant", no_analytics_data⟩
            | .ok none => .ok ⟨"assistant", no_analytics_data⟩
          | .unexpected => .ok ⟨"assistant", trouble_rephrase⟩
        match response_message with
        | .error _ => .ok (query_exception_handler store2 now x_session_id)
        | .ok response_msg =>
          let store3 := store2.mutate_state session_id (fun s =>
            ⟨s.recent_messages ++ [response_msg]⟩)
          .ok (⟨response_msg.content, session_id⟩, store3)

/-! ### Dictionary lemmas -/

theorem dictFind_dictSet_self (m : List (String × SessionData)) (k : String)
    (v : SessionData) : dictFind (dictSet m k v) k = some v := by
  induction m with
  | nil => simp [dictSet, dictFind]
  | cons e rest ih =>
    obtain ⟨k', w⟩ := e
    by_cases h : k' = k <;> simp [dictSet, dictFind, h, ih]

theorem dictFind_dictSet_ne (m : List (String × SessionData)) (k k' : String)
    (v : SessionData) (h : k' ≠ k) :
    dictFind (dictSet m k v) k' = dictFind m k' := by
  induction m with
  | nil => simp [dictSet, dictFind, Ne.symm h]
  | cons e rest ih =>
    obtain ⟨k₀, w⟩ := e
    by_cases h0 : k₀ = k
    · subst h0
      simp [dictSet, dictFind, Ne.symm h]
    · simp [dictSet, h0, dictFind, ih]

theorem mem_dictSet {m : List (String × SessionData)} {k : String}
    {v : SessionData} {e : String × SessionData} (he : e ∈ dictSet m k v) :
    e ∈ m ∨ e = (k, v) := by
  induction m with
  | nil => simpa [dictSet] using he
  | cons e₀ rest ih =>
    obtain ⟨k₀, w⟩ := e₀
    by_cases h0 : k₀ = k
    · simp only [dictSet, if_pos h0, List.mem_cons] at he
      rcases he with h | h
      · exact Or.inr h
      · exact Or.inl (List.mem_cons_of_mem _ h)
    · simp only [dictSet, if_neg h0, List.mem_cons] at he
      rcases he with h | h
      · exact Or.inl (List.mem_cons.mpr (Or.inl h))
      · rcases ih h with h' | h'
        · exact Or.inl (List.mem_cons_of_mem _ h')
        · exact Or.inr h'

theorem dictFind_mem {m : List (String × SessionData)} {k : String}
    {v : SessionData} (h : dictFind m k = some v) : (k, v) ∈ m := by
  induction m with
  | nil => simp [dictFind] at h
  | cons e rest ih =>
    obtain ⟨k₀, w⟩ := e
    by_cases h0 : k₀ = k
    · subst h0
      rw [dictFind, if_pos rfl] at h
      injection h with h
      exact List.mem_cons.mpr (Or.inl (by rw [h]))
    · rw [dictFind, if_neg h0] at h
      exact List.mem_cons_of_mem _ (ih h)

theorem dictFind_dictUpdate_self (m : List (String × SessionData)) (k : String)
    (g : SessionData → SessionData) :
    dictFind (dictUpdate m k g) k = (dictFind m k).map g := by
  induction m with
  | nil => simp [dictUpdate, dictFind]
  | cons e rest ih =>
    obtain ⟨k₀, w⟩ := e
    simp only [dictUpdate, List.map_cons] at ih ⊢
    by_cases h0 : k₀ = k
    · subst h0
      rw [if_pos rfl]
      simp [dictFind, ih]
    · rw [if_neg h0]
      simp [dictFind, h0, ih]

theorem mem_dictUpdate {m : List (String × SessionData)} {k : String}
    {g : SessionData → SessionData} {e : String × SessionData}
    (he : e ∈ dictUpdate m k g) :
    ∃ e₀ ∈ m, e = if e₀.1 = k then (e₀.1, g e₀.2) else e₀ := by
  simp only [dictUpdate, List.mem_map] at he
  obtain ⟨e₀, h₀, hEq⟩ := he
  exact ⟨e₀, h₀, hEq.symm⟩

theorem dictFind_filter_self (m : List (String × SessionData)) (k : String) :
    dictFind (m.filter (fun e => !decide (e.1 = k))) k = none := by
  induction m with
  | nil => simp [dictFind]
  | cons e rest ih =>
    obtain ⟨k₀, w⟩ := e
    by_cases h0 : k₀ = k
    · simpa [List.filter_cons, h0] using ih
    · simpa [List.filter_cons, h0, dictFind] using ih

/-- A kept binding survives a value-predicate filter as the first binding
of its key. -/
theorem dictFind_filter_keep (m : List (String × SessionData)) (k : String)
    (p : SessionData → Bool) {v : SessionData}
    (hfind : dictFind m k = some v) (hp : p v = true) :
    dictFind (m.filter (fun e => p e.2)) k = some v := by
  induction m with
  | nil => simp [dictFind] at hfind
  | cons e rest ih =>
    obtain ⟨k₀, w⟩ := e
    by_cases h0 : k₀ = k
    · subst h0
      rw [dictFind, if_pos rfl] at hfind
      injection hfind with hfind
      subst hfind
      simp [List.filter_cons, hp, dictFind]
    · rw [dictFind, if_neg h0] at hfind
      by_cases hw : p w = true
      · simpa [List.filter_cons, hw, dictFind, h0] using ih hfind
      · simp only [Bool.not_eq_true] at hw
        simpa [List.filter_cons, hw] using ih hfind

/-! ### Session store lemmas -/

theorem cleanup_mem_iff (store : SessionStore) (now : Int)
    (e : String × SessionData) :
    e ∈ (store.cleanup_expired_sessions now).sessions ↔
      e ∈ store.sessions ∧ ¬(e.2.created_at < now - expiry_window) := by
  simp [SessionStore.cleanup_expired_sessions, List.mem_filter]

theorem dictFind_cleanup_not_expired {store : SessionStore} {now : Int}
    {sid : String} {sd : SessionData}
    (h : dictFind (store.cleanup_expired_sessions now).sessions sid = some sd) :
    ¬(sd.created_at < now - expiry_window) :=
  ((cleanup_mem_iff store now _).mp (dictFind_mem h)).2

theorem get_state_of_found {store : SessionStore} {now : Int} {sid : String}
    {sd : SessionData}
    (h : dictFind (store.cleanup_expired_sessions now).sessions sid = some sd) :
    store.get_state now sid = .ok (sd.state, store.cleanup_expired_sessions now) := by
  unfold SessionStore.get_state
  simp [h]

theorem get_state_of_absent {store : SessionStore} {now : Int} {sid : String}
    (h : dictFind (store.cleanup_expired_sessions now).sessions sid = none) :
    store.get_state now sid =
      .ok (initial_state,
        ⟨dictSet (store.cleanup_expired_sessions now).sessions sid
          ⟨initial_state, now⟩⟩) := by
  unfold SessionStore.get_state
  simp [h, dictFind_dictSet_self]

/-- `get_state` always succeeds, and the store it returns binds the
requested id to an unexpired `SessionData` holding the returned state. -/
theorem get_state_finds (store : SessionStore) (now : Int) (sid : String) :
    ∃ state store1 sd, store.get_state now sid = .ok (state, store1) ∧
      dictFind store1.sessions sid = some sd ∧ sd.state = state ∧
      ¬(sd.created_at < now - expiry_window) := by
  cases h : dictFind (store.cleanup_expired_sessions now).sessions sid with
  | some sd =>
    exact ⟨sd.state, _, sd, get_state_of_found h, h, rfl,
      dictFind_cleanup_not_expired h⟩
  | none =>
    refine ⟨initial_state, _, ⟨initial_state, now⟩, get_state_of_absent h,
      dictFind_dictSet_self _ _ _, rfl, ?_⟩
    show ¬(now < now - expiry_window)
    unfold expiry_window
    omega

/-! ### Claim theorems -/

/-- C2: `get_state(session_id)` always succeeds: the expiry sweep runs
first (the lookup is over the swept store), an unknown identifier gets a
fresh session whose state is exactly one assistant welcome message, and a
known identifier gets its stored state back. -/
theorem get_state_total_spec (store : SessionStore) (now : Int) (sid : String) :
    (∃ state store', store.get_state now sid = .ok (state, store')) ∧
    initial_state.recent_messages = [⟨"assistant", welcome_content⟩] ∧
    (dictFind (store.cleanup_expired_sessions now).sessions sid = none →
      store.get_state now sid =
        .ok (initial_state,
          ⟨dictSet (store.cleanup_expired_sessions now).sessions sid
            ⟨initial_state, now⟩⟩)) ∧
    (∀ sd, dictFind (store.cleanup_expired_sessions now).sessions sid = some sd →
      store.get_state now sid = .ok (sd.state, store.cleanup_expired_sessions now)) := by
  refine ⟨?_, rfl, fun h => get_state_of_absent h, fun sd h => get_state_of_found h⟩
  obtain ⟨state, store', sd, hgs, -, -, -⟩ := get_state_finds store now sid
  exact ⟨state, store', hgs⟩

/-- Witness for C2 at a concrete fresh identifier. -/
theorem get_state_total_spec_witness :
    dictFind ((SessionStore.mk []).cleanup_expired_sessions 0).sessions "s" = none ∧
    (SessionStore.mk []).get_state 0 "s" =
      .ok (initial_state, ⟨[("s", ⟨initial_state, 0⟩)]⟩) :=
  ⟨rfl, (get_state_total_spec ⟨[]⟩ 0 "s").2.2.1 rfl⟩

/-- C3: the sweep removes exactly the entries created more than 4 hours
before `now` and keeps the rest; `get_state` either preserves an entry
verbatim (same creation timestamp) or inserts the fresh one stamped `now`,
so whether an entry survives a later sweep depends only on its creation
time, not on accesses. -/
theorem expiry_sweep_spec (store : SessionStore) (now now₂ : Int) :
    (∀ e, e ∈ (store.cleanup_expired_sessions now).sessions ↔
      e ∈ store.sessions ∧ ¬(e.2.created_at < now - expiry_window)) ∧
    (∀ sid state store', store.get_state now sid = .ok (state, store') →
      ∀ e ∈ store'.sessions,
        (e ∈ store.sessions ∧ ¬(e.2.created_at < now - expiry_window)) ∨
          e = (sid, ⟨initial_state, now⟩)) ∧
    (∀ sid state store', store.get_state now sid = .ok (state, store') →
      ∀ k sd, (k, sd) ∈ store'.sessions →
        sd.created_at < now₂ - expiry_window →
          (k, sd) ∉ (store'.cleanup_expired_sessions now₂).sessions) := by
  refine ⟨fun e => cleanup_mem_iff store now e, ?_, ?_⟩
  · intro sid state store' h e he
    cases hfind : dictFind (store.cleanup_expired_sessions now).sessions sid with
    | some sd =>
      rw [get_state_of_found hfind] at h
      injection h with h
      have h2 : store.cleanup_expired_sessions now = store' :=
        congrArg Prod.snd h
      rw [← h2] at he
      exact Or.inl ((cleanup_mem_iff store now e).mp he)
    | none =>
      rw [get_state_of_absent hfind] at h
      injection h with h
      have h2 : SessionStore.mk (dictSet
          (store.cleanup_expired_sessions now).sessions sid
          ⟨initial_state, now⟩) = store' := congrArg Prod.snd h
      rw [← h2] at he
      rcases mem_dictSet he with h' | h'
      · exact Or.inl ((cleanup_mem_iff store now e).mp h')
      · exact Or.inr h'
  · intro sid state store' _ k sd _ hexp hmem
    exact ((cleanup_mem_iff store' now₂ (k, sd)).mp hmem).2 hexp

/-- Witness for C3: an entry created at 10000 survives an access at 20000
verbatim (creation timestamp untouched, not the fresh 20000 stamp). -/
theorem expiry_sweep_spec_witness :
    (("a", SessionData.mk ⟨[]⟩ 10000) ∈
        (SessionStore.mk [("a", ⟨⟨[]⟩, 10000⟩)]).sessions ∧
      ¬((SessionData.mk ⟨[]⟩ 10000).created_at < 20000 - expiry_window)) ∨
    ("a", SessionData.mk ⟨[]⟩ 10000) = ("a", ⟨initial_state, 20000⟩) :=
  (expiry_sweep_spec ⟨[("a", ⟨⟨[]⟩, 10000⟩)]⟩ 20000 0).2.1 "a" ⟨[]⟩
    ⟨[("a", ⟨⟨[]⟩, 10000⟩)]⟩ rfl ("a", ⟨⟨[]⟩, 10000⟩)
    (List.mem_cons.mpr (Or.inl rfl))

/-- C10: `set_state` on a bound identifier replaces only the state and
keeps every entry's creation timestamp; on an unbound identifier it
inserts a fresh entry stamped with the current time. -/
theorem set_state_spec (store : SessionStore) (now : Int) (sid : String)
    (st : State) :
    (∀ sd, dictFind store.sessions sid = some sd →
      dictFind (store.set_state now sid st).sessions sid =
        some ⟨st, sd.created_at⟩ ∧
      ∀ e ∈ (store.set_state now sid st).sessions,
        ∃ e₀ ∈ store.sessions, e.1 = e₀.1 ∧ e.2.created_at = e₀.2.created_at) ∧
    (dictFind store.sessions sid = none →
      store.set_state now sid st = ⟨dictSet store.sessions sid ⟨st, now⟩⟩ ∧
      dictFind (store.set_state now sid st).sessions sid = some ⟨st, now⟩) := by
  constructor
  · intro sd hfound
    have hform : (store.set_state now sid st).sessions =
        dictUpdate store.sessions sid (fun sd => { sd with state := st }) := by
      unfold SessionStore.set_state
      rw [hfound]
    constructor
    · rw [hform, dictFind_dictUpdate_self, hfound]
      rfl
    · intro e he
      rw [hform] at he
      obtain ⟨e₀, h₀, hEq⟩ := mem_dictUpdate he
      subst hEq
      by_cases hk : e₀.1 = sid
      · exact ⟨e₀, h₀, by simp [hk]⟩
      · exact ⟨e₀, h₀, by simp [hk]⟩
  · intro habsent
    have hform : store.set_state now sid st =
        ⟨dictSet store.sessions sid ⟨st, now⟩⟩ := by
      unfold SessionStore.set_state
      rw [habsent]
    exact ⟨hform, by rw [hform]; exact dictFind_dictSet_self _ _ _⟩

/-- Witness for C10 on a store with one live entry (replace) and one
absent identifier (insert). -/
theorem set_state_spec_witness :
    dictFind ((SessionStore.mk [("a", ⟨⟨[]⟩, 7⟩)]).set_state 99 "a"
        initial_state).sessions "a" = some ⟨initial_state, 7⟩ ∧
    dictFind ((SessionStore.mk [("a", ⟨⟨[]⟩, 7⟩)]).set_state 99 "b"
        initial_state).sessions "b" = some ⟨initial_state, 99⟩ :=
  ⟨((set_state_spec ⟨[("a", ⟨⟨[]⟩, 7⟩)]⟩ 99 "a" initial_state).1 ⟨⟨[]⟩, 7⟩ rfl).1,
   ((set_state_spec ⟨[("a", ⟨⟨[]⟩, 7⟩)]⟩ 99 "b" initial_state).2 rfl).2⟩

/-- C4: deleting is total and idempotent — deleting an absent identifier
is a no-op, after a delete the identifier is unbound, deleting twice
equals deleting once, and the authorized DELETE endpoint always answers
`deleted = true`. -/
theorem delete_session_spec (store : SessionStore) (sid key : String)
    (hkey : key ≠ "") :
    (dictFind store.sessions sid = none → store.delete_session sid = store) ∧
    dictFind (store.delete_session sid).sessions sid = none ∧
    (store.delete_session sid).delete_session sid = store.delete_session sid ∧
    api_delete_session (some key) (some key) store sid =
      .ok (⟨true, sid⟩, store.delete_session sid) := by
  have habsent : ∀ s : SessionStore, dictFind s.sessions sid = none →
      s.delete_session sid = s := by
    intro s h
    unfold SessionStore.delete_session
    rw [h]
  have hnone : dictFind (store.delete_session sid).sessions sid = none := by
    unfold SessionStore.delete_session
    cases h : dictFind store.sessions sid with
    | some sd => exact dictFind_filter_self store.sessions sid
    | none => exact h
  refine ⟨habsent store, hnone, habsent _ hnone, ?_⟩
  simp [api_delete_session, bearer_auth, verify_api_key, hkey, Except.bind]

/-- Witness for C4 on an empty store with key "k". -/
theorem delete_session_spec_witness :
    api_delete_session (some "k") (some "k") ⟨[]⟩ "s" =
      .ok (⟨true, "s"⟩, (SessionStore.mk []).delete_session "s") :=
  (delete_session_spec ⟨[]⟩ "s" "k" (by decide)).2.2.2

theorem bearer_auth_valid {key : String} (hkey : key ≠ "") :
    bearer_auth (some key) (some key) = .ok key := by
  simp [bearer_auth, verify_api_key, hkey]

theorem bearer_auth_error_status {pp auth : Option String} {e : HttpError}
    (h : bearer_auth pp auth = .error e) : e.1 = 403 ∨ e.1 = 500 := by
  unfold bearer_auth verify_api_key at h
  cases auth with
  | none =>
    dsimp only at h
    injection h with h; rw [← h]; exact Or.inl rfl
  | some cred =>
    cases pp with
    | none =>
      dsimp only at h
      injection h with h; rw [← h]; exact Or.inr rfl
    | some expected =>
      dsimp only at h
      by_cases h0 : expected = ""
      · rw [if_pos h0] at h
        injection h with h
        rw [← h]; exact Or.inr rfl
      · rw [if_neg h0] at h
        by_cases h1 : cred ≠ expected
        · rw [if_pos h1] at h
          injection h with h
          rw [← h]; exact Or.inl rfl
        · rw [if_neg h1] at h
          cases h

/-- C9: the 404 branch of the session GET endpoint is dead code — the only
errors the endpoint can produce come from authentication (403/500), and
with a valid key an unknown or expired identifier yields 200 with a fresh
session holding only the welcome message, never the documented 404. -/
theorem get_session_never_404 (pp auth : Option String) (store : SessionStore)
    (now : Int) (sid : String) :
    (∀ e, api_get_session pp auth store now sid = .error e →
      e.1 = 403 ∨ e.1 = 500) ∧
    (∀ tok, bearer_auth pp auth = .ok tok →
      dictFind (store.cleanup_expired_sessions now).sessions sid = none →
      api_get_session pp auth store now sid =
        .ok (⟨sid, initial_state⟩,
          ⟨dictSet (store.cleanup_expired_sessions now).sessions sid
            ⟨initial_state, now⟩⟩) ∧
        initial_state.recent_messages = [welcome_message]) := by
  constructor
  · intro e he
    cases hb : bearer_auth pp auth with
    | error e₀ =>
      unfold api_get_session at he
      rw [hb] at he
      simp only [Except.bind] at he
      injection he with he
      rw [← he]
      exact bearer_auth_error_status hb
    | ok tok =>
      exfalso
      obtain ⟨state, store', sd, hgs, -, -, -⟩ := get_state_finds store now sid
      unfold api_get_session at he
      rw [hb] at he
      simp only [Except.bind] at he
      rw [hgs] at he
      cases he
  · intro tok hb habsent
    refine ⟨?_, rfl⟩
    unfold api_get_session
    rw [hb]
    simp only [Except.bind]
    rw [get_state_of_absent habsent]

/-- Witness for C9: valid key, empty store, unknown id — 200 with the
fresh welcome-only session. -/
theorem get_session_never_404_witness :
    api_get_session (some "k") (some "k") ⟨[]⟩ 0 "gone" =
      .ok (⟨"gone", initial_state⟩, ⟨[("gone", ⟨initial_state, 0⟩)]⟩) ∧
    initial_state.recent_messages = [welcome_message] :=
  (get_session_never_404 (some "k") (some "k") ⟨[]⟩ 0 "gone").2 "k"
    (bearer_auth_valid (by decide)) rfl

/-- C5: resolving an unrecognized category is `none`; a recognized
category none of whose files is readable is `none`; a recognized category
with at least one readable file is the blank-line join of the readable
files' contents in table order.  (A failed read of an individual file is
the `FileRead.read_error` case, folded into a skip — the function is total
and raises nothing.) -/
theorem analytics_resolver_spec (fs : String → FileRead)
    (analytics_category analytics_dir : String) :
    (category_filenames analytics_category = none →
      get_analytics_data_for_category fs analytics_category analytics_dir = none) ∧
    (∀ files, category_filenames analytics_category = some files →
      (∀ fn ∈ files, read_file fs (analytics_dir ++ "/" ++ fn) = none) →
      get_analytics_data_for_category fs analytics_category analytics_dir = none) ∧
    (∀ files, category_filenames analytics_category = some files →
      (∃ fn ∈ files, (read_file fs (analytics_dir ++ "/" ++ fn)).isSome) →
      get_analytics_data_for_category fs analytics_category analytics_dir =
        some (String.intercalate "\n\n"
          (files.filterMap (fun fn => read_file fs (analytics_dir ++ "/" ++ fn))))) := by
  refine ⟨?_, ?_, ?_⟩
  · intro h
    unfold get_analytics_data_for_category
    rw [h]
  · intro files hfiles hall
    unfold get_analytics_data_for_category
    rw [hfiles]
    have hnil : files.filterMap
        (fun fn => read_file fs (analytics_dir ++ "/" ++ fn)) = [] :=
      List.filterMap_eq_nil_iff.mpr hall
    simp [hnil]
  · intro files hfiles ⟨fn, hmem, hsome⟩
    unfold get_analytics_data_for_category
    rw [hfiles]
    obtain ⟨c, hc⟩ := Option.isSome_iff_exists.mp hsome
    have hne : files.filterMap
        (fun fn => read_file fs (analytics_dir ++ "/" ++ fn)) ≠ [] :=
      List.ne_nil_of_mem (List.mem_filterMap.mpr ⟨fn, hmem, hc⟩)
    simp only [List.isEmpty_iff, if_neg hne]

/-- Witness for C5: every file of the USERS category reads "DATA". -/
theorem analytics_resolver_spec_witness :
    get_analytics_data_for_category (fun _ => .ok "DATA") "USERS"
        "analytics_reports" =
      some (String.intercalate "\n\n"
        (["active_users.md", "top_users.md", "onboarding_performance.md",
            "navigation_patterns.md"].filterMap
          (fun fn => read_file (fun _ => .ok "DATA")
            ("analytics_reports" ++ "/" ++ fn)))) :=
  (analytics_resolver_spec (fun _ => .ok "DATA") "USERS"
      "analytics_reports").2.2
    ["active_users.md", "top_users.md", "onboarding_performance.md",
      "navigation_patterns.md"] rfl
    ⟨"active_users.md", List.mem_cons.mpr (Or.inl rfl), rfl⟩

/-- A stub LLM client (used only to exercise the HTTP surface). -/
def stub_llm : LLMClient :=
  ⟨fun _ => .ok .unexpected, fun _ _ => .error ()⟩

/-- A resolver that finds no analytics data and never raises. -/
def stub_resolver : String → Except Unit (Option String) := fun _ => .ok none

/-- C1 (failing input): with PP_API_KEY configured, a wrong bearer token is
rejected 403 "Invalid API key" by every endpoint that takes the
`verify_api_key` dependency — but GET /api/health (`app/routers/health.py`)
takes no such dependency and answers 200 for the wrong token, and 200
again when PP_API_KEY is not configured (the claimed 500).  The inline
`app/main.py` health variant, which the repository's own tests assert,
does reject with 403. -/
theorem health_route_bypasses_auth :
    api_health (some "test-api-key-12345") (some "wrong-key") =
      .ok ⟨"ok", "1.0.0"⟩ ∧
    api_health none (some "wrong-key") = .ok ⟨"ok", "1.0.0"⟩ ∧
    verify_api_key (some "test-api-key-12345") "wrong-key" =
      .error (403, "Invalid API key") ∧
    main_api_health (some "test-api-key-12345") (some "wrong-key") =
      .error (403, "Invalid API key") ∧
    api_create_session (some "test-api-key-12345") (some "wrong-key")
        ⟨[]⟩ 0 "u" = .error (403, "Invalid API key") ∧
    api_get_session (some "test-api-key-12345") (some "wrong-key")
        ⟨[]⟩ 0 "s" = .error (403, "Invalid API key") ∧
    api_delete_session (some "test-api-key-12345") (some "wrong-key")
        ⟨[]⟩ "s" = .error (403, "Invalid API key") ∧
    process_query stub_llm stub_resolver (some "test-api-key-12345")
        (some "wrong-key") ⟨[]⟩ 0 (some "s") "hello" =
      .error (403, "Invalid API key") := by
  exact ⟨rfl, rfl, rfl, rfl, rfl, rfl, rfl, rfl⟩

theorem getLast_append_single (l : List Message) (m : Message) :
    (l ++ [m]).getLast? = some m := by
  simp

theorem dictFind_mutate_self (store : SessionStore) (sid : String)
    (f : State → State) {sd : SessionData}
    (h : dictFind store.sessions sid = some sd) :
    dictFind (store.mutate_state sid f).sessions sid =
      some ⟨f sd.state, sd.created_at⟩ := by
  unfold SessionStore.mutate_state
  dsimp only
  rw [dictFind_dictUpdate_self, h]
  rfl

/-- C7: when the primary LLM call returns an analytics question and the
resolver returns absence, the dispatcher answers 200 with the fixed
"don't have access to the analytics data" fallback and appends it to the
session history.  The secondary entry point
`llm.answer_analytics_question` is universally quantified and
unconstrained, so the conclusion holding for every such function shows the
secondary call is not consulted. -/
theorem analytics_absent_fallback (llm : LLMClient)
    (resolver : String → Except Unit (Option String))
    (key sid msg cat q : String) (store : SessionStore) (now : Int)
    (hkey : key ≠ "")
    (hchat : ∀ s, llm.chat s = .ok (.analytics_question cat q))
    (hres : resolver cat = .ok none) :
    ∃ store', process_query llm resolver (some key) (some key) store now
        (some sid) msg = .ok (⟨no_analytics_data, sid⟩, store') ∧
      ∃ sd, dictFind store'.sessions sid = some sd ∧
        sd.state.recent_messages.getLast? =
          some ⟨"assistant", no_analytics_data⟩ := by
  obtain ⟨state, store1, sd1, hgs, hfind1, hsd1, -⟩ := get_state_finds store now sid
  refine ⟨(store1.mutate_state sid (fun s =>
      ⟨s.recent_messages ++ [⟨"user", msg⟩]⟩)).mutate_state sid (fun s =>
      ⟨s.recent_messages ++ [⟨"assistant", no_analytics_data⟩]⟩), ?_, ?_⟩
  · unfold process_query
    rw [bearer_auth_valid hkey]
    simp only [Except.bind]
    rw [hgs]
    dsimp only
    rw [hchat]
    dsimp only
    rw [hres]
  · have h1 := dictFind_mutate_self _ sid (fun s =>
      ⟨s.recent_messages ++ [⟨"assistant", no_analytics_data⟩]⟩)
      (dictFind_mutate_self store1 sid (fun s =>
        ⟨s.recent_messages ++ [⟨"user", msg⟩]⟩) hfind1)
    exact ⟨_, h1, getLast_append_single _ _⟩

/-- An LLM client that always asks an analytics question for USERS. -/
def users_question_llm : LLMClient :=
  ⟨fun _ => .ok (.analytics_question "USERS" "How many users do we have?"),
   fun _ _ => .error ()⟩

/-- Witness for C7: the USERS question against the absent resolver. -/
theorem analytics_absent_fallback_witness :
    ∃ store', process_query users_question_llm stub_resolver (some "k")
        (some "k") ⟨[]⟩ 0 (some "s") "how many users" =
      .ok (⟨no_analytics_data, "s"⟩, store') ∧
      ∃ sd, dictFind store'.sessions "s" = some sd ∧
        sd.state.recent_messages.getLast? =
          some ⟨"assistant", no_analytics_data⟩ :=
  analytics_absent_fallback users_question_llm stub_resolver "k" "s"
    "how many users" "USERS" "How many users do we have?" ⟨[]⟩ 0 (by decide)
    (fun _ => rfl) rfl

/-- C6: with a valid key and a session header, the query path never
surfaces an error — whatever the LLM client and resolver do (including
raising), the endpoint answers 200; and when any of the external calls
raises — the primary `chat`, the resolver, or the secondary
`answer_analytics_question` reached with resolved non-empty data — the
response is the fixed "having trouble processing your request" apology,
which is also appended to the session history as an assistant message. -/
theorem query_path_catches_exceptions (llm : LLMClient)
    (resolver : String → Except Unit (Option String)) (key sid msg : String)
    (store : SessionStore) (now : Int) (hkey : key ≠ "") :
    (∃ r, process_query llm resolver (some key) (some key) store now
      (some sid) msg = .ok r) ∧
    ((∀ s, llm.chat s = .error ()) →
      ∃ store', process_query llm resolver (some key) (some key) store now
          (some sid) msg = .ok (⟨trouble_try_again, sid⟩, store') ∧
        ∃ sd, dictFind store'.sessions sid = some sd ∧
          sd.state.recent_messages.getLast? =
            some ⟨"assistant", trouble_try_again⟩) ∧
    (∀ cat q, (∀ s, llm.chat s = .ok (.analytics_question cat q)) →
      resolver cat = .error () →
      ∃ store', process_query llm resolver (some key) (some key) store now
          (some sid) msg = .ok (⟨trouble_try_again, sid⟩, store') ∧
        ∃ sd, dictFind store'.sessions sid = some sd ∧
          sd.state.recent_messages.getLast? =
            some ⟨"assistant", trouble_try_again⟩) ∧
    (∀ cat q data, (∀ s, llm.chat s = .ok (.analytics_question cat q)) →
      resolver cat = .ok (some data) → data ≠ "" →
      (∀ s d, llm.answer_analytics_question s d = .error ()) →
      ∃ store', process_query llm resolver (some key) (some key) store now
          (some sid) msg = .ok (⟨trouble_try_again, sid⟩, store') ∧
        ∃ sd, dictFind store'.sessions sid = some sd ∧
          sd.state.recent_messages.getLast? =
            some ⟨"assistant", trouble_try_again⟩) := by
  obtain ⟨state, store1, sd1, hgs, hfind1, hsd1, hexp⟩ := get_state_finds store now sid
  -- the store after the in-place append of the user message, and the
  -- renewed lookup the exception handler performs on it
  have hfind2 : dictFind (store1.mutate_state sid (fun s =>
      ⟨s.recent_messages ++ [⟨"user", msg⟩]⟩)).sessions sid =
      some ⟨⟨sd1.state.recent_messages ++ [⟨"user", msg⟩]⟩, sd1.created_at⟩ :=
    dictFind_mutate_self store1 sid _ hfind1
  have hkeep : (!decide ((SessionData.mk
      ⟨sd1.state.recent_messages ++ [⟨"user", msg⟩]⟩
      sd1.created_at).created_at < now - expiry_window)) = true := by
    simp [decide_eq_false hexp]
  have hclean : dictFind ((store1.mutate_state sid (fun s =>
      ⟨s.recent_messages ++ [⟨"user", msg⟩]⟩)).cleanup_expired_sessions
        now).sessions sid =
      some ⟨⟨sd1.state.recent_messages ++ [⟨"user", msg⟩]⟩, sd1.created_at⟩ :=
    dictFind_filter_keep _ sid
      (fun sd => !decide (sd.created_at < now - expiry_window)) hfind2 hkeep
  have hgs2 := get_state_of_found hclean
  refine ⟨?_, ?_, ?_, ?_⟩
  · cases hq : process_query llm resolver (some key) (some key) store now
        (some sid) msg with
    | ok r => exact ⟨r, rfl⟩
    | error err =>
      exfalso
      unfold process_query at hq
      rw [bearer_auth_valid hkey] at hq
      simp only [Except.bind] at hq
      rw [hgs] at hq
      dsimp only at hq
      split at hq
      · cases hq
      · split at hq <;> cases hq
  · intro hchat
    refine ⟨((store1.mutate_state sid (fun s =>
        ⟨s.recent_messages ++ [⟨"user", msg⟩]⟩)).cleanup_expired_sessions
          now).mutate_state sid (fun s =>
        ⟨s.recent_messages ++ [⟨"assistant", trouble_try_again⟩]⟩), ?_, ?_⟩
    · unfold process_query
      rw [bearer_auth_valid hkey]
      simp only [Except.bind]
      rw [hgs]
      dsimp only
      rw [hchat]
      dsimp only
      unfold query_exception_handler
      dsimp only
      rw [hgs2]
    · have h1 := dictFind_mutate_self _ sid (fun s =>
        ⟨s.recent_messages ++ [⟨"assistant", trouble_try_again⟩]⟩) hclean
      exact ⟨_, h1, getLast_append_single _ _⟩
  · intro cat q hchat hres
    refine ⟨((store1.mutate_state sid (fun s =>
        ⟨s.recent_messages ++ [⟨"user", msg⟩]⟩)).cleanup_expired_sessions
          now).mutate_state sid (fun s =>
        ⟨s.recent_messages ++ [⟨"assistant", trouble_try_again⟩]⟩), ?_, ?_⟩
    · unfold process_query
      rw [bearer_auth_valid hkey]
      simp only [Except.bind]
      rw [hgs]
      dsimp only
      rw [hchat]
      dsimp only
      rw [hres]
      dsimp only
      unfold query_exception_handler
      dsimp only
      rw [hgs2]
    · have h1 := dictFind_mutate_self _ sid (fun s =>
        ⟨s.recent_messages ++ [⟨"assistant", trouble_try_again⟩]⟩) hclean
      exact ⟨_, h1, getLast_append_single _ _⟩
  · intro cat q data hchat hres hdata hans
    refine ⟨((store1.mutate_state sid (fun s =>
        ⟨s.recent_messages ++ [⟨"user", msg⟩]⟩)).cleanup_expired_sessions
          now).mutate_state sid (fun s =>
        ⟨s.recent_messages ++ [⟨"assistant", trouble_try_again⟩]⟩), ?_, ?_⟩
    · unfold process_query
      rw [bearer_auth_valid hkey]
      simp only [Except.bind]
      rw [hgs]
      dsimp only
      rw [hchat]
      dsimp only
      rw [hres]
      dsimp only
      rw [if_pos hdata, hans]
      dsimp only
      unfold query_exception_handler
      dsimp only
      rw [hgs2]
    · have h1 := dictFind_mutate_self _ sid (fun s =>
        ⟨s.recent_messages ++ [⟨"assistant", trouble_try_again⟩]⟩) hclean
      exact ⟨_, h1, getLast_append_single _ _⟩

/-- An LLM client whose primary entry point always raises. -/
def raising_llm : LLMClient :=
  ⟨fun _ => .error (), fun _ _ => .error ()⟩

/-- An LLM client that asks a USERS analytics question and whose secondary
entry point always raises. -/
def secondary_raising_llm : LLMClient :=
  ⟨fun _ => .ok (.analytics_question "USERS" "q"), fun _ _ => .error ()⟩

/-- A resolver that always finds the text "DATA". -/
def data_resolver : String → Except Unit (Option String) :=
  fun _ => .ok (some "DATA")

/-- Witness for C6: the primary-raising client, and the client whose
secondary call raises after the resolver returned data, both on an empty
store. -/
theorem query_path_catches_exceptions_witness :
    (∃ store', process_query raising_llm stub_resolver (some "k") (some "k")
        ⟨[]⟩ 0 (some "s") "m" = .ok (⟨trouble_try_again, "s"⟩, store') ∧
      ∃ sd, dictFind store'.sessions "s" = some sd ∧
        sd.state.recent_messages.getLast? =
          some ⟨"assistant", trouble_try_again⟩) ∧
    (∃ store', process_query secondary_raising_llm data_resolver (some "k")
        (some "k") ⟨[]⟩ 0 (some "s") "m" =
      .ok (⟨trouble_try_again, "s"⟩, store') ∧
      ∃ sd, dictFind store'.sessions "s" = some sd ∧
        sd.state.recent_messages.getLast? =
          some ⟨"assistant", trouble_try_again⟩) :=
  ⟨(query_path_catches_exceptions raising_llm stub_resolver "k" "s" "m"
      ⟨[]⟩ 0 (by decide)).2.1 (fun _ => rfl),
   (query_path_catches_exceptions secondary_raising_llm data_resolver "k" "s"
      "m" ⟨[]⟩ 0 (by decide)).2.2.2 "USERS" "q" "DATA" (fun _ => rfl) rfl
      (by decide) (fun _ _ => rfl)⟩

/-- An LLM client that answers every chat directly with "hi". -/
def hi_llm : LLMClient :=
  ⟨fun _ => .ok (.message ⟨"assistant", "hi"⟩), fun _ _ => .error ()⟩

/-- C8: the end-to-end scenario — create a session (201, one welcome
message), query it with "hello" while the client answers "hi" (200,
response "hi"), then read it back: exactly the welcome, user "hello" and
assistant "hi", in order. -/
theorem end_to_end_scenario :
    api_create_session (some "test-api-key-12345") (some "test-api-key-12345")
        ⟨[]⟩ 0 "sid-1" =
      .ok (201, ⟨"sid-1", initial_state⟩, ⟨[("sid-1", ⟨initial_state, 0⟩)]⟩) ∧
    initial_state.recent_messages.length = 1 ∧
    process_query hi_llm stub_resolver (some "test-api-key-12345")
        (some "test-api-key-12345") ⟨[("sid-1", ⟨initial_state, 0⟩)]⟩ 0
        (some "sid-1") "hello" =
      .ok (⟨"hi", "sid-1"⟩,
        ⟨[("sid-1", ⟨⟨[welcome_message, ⟨"user", "hello"⟩,
            ⟨"assistant", "hi"⟩]⟩, 0⟩)]⟩) ∧
    api_get_session (some "test-api-key-12345") (some "test-api-key-12345")
        ⟨[("sid-1", ⟨⟨[welcome_message, ⟨"user", "hello"⟩,
            ⟨"assistant", "hi"⟩]⟩, 0⟩)]⟩ 0 "sid-1" =
      .ok (⟨"sid-1", ⟨[welcome_message, ⟨"user", "hello"⟩,
            ⟨"assistant", "hi"⟩]⟩⟩,
        ⟨[("sid-1", ⟨⟨[welcome_message, ⟨"user", "hello"⟩,
            ⟨"assistant", "hi"⟩]⟩, 0⟩)]⟩) :=
  ⟨rfl, rfl, rfl, rfl⟩

end PPChat
